import Mathlib

/-!
Shallow embedding of the sc3 object-lifecycle / error-propagation core of
libsc (version 3): the mstamp arena query predicates, configuration setters
and read accessors of src/sc3_memstamp.c, the SC3 error macros of
src/sc3_error.h, the single-process MPI stand-in of src/sc_dummympi.c, and
spec-modelled error-object operations whose .c implementation is not part of
the source tree (only sc3_error.h declares them).

Query predicates of the form sc3_*_is_* take a possibly-NULL object pointer
(an Option) and return a C boolean together with the string that would be
written into a non-NULL reason buffer of size SC3_BUFSIZE.
-/

/-- Modelled from the spec: the fixed maximum length of all message/reason
strings (SC3_BUFSIZE of sc3_base.h, which is not part of the source tree;
the spec only requires a fixed bound). -/
def SC3_BUFSIZE : Nat := 160

/-- SC3_BUFCOPY: bounded string copy into a buffer of SC3_BUFSIZE bytes,
truncating to at most SC3_BUFSIZE - 1 characters plus the NUL. -/
def SC3_BUFCOPY (s : String) : String :=
  String.mk (s.toList.take (SC3_BUFSIZE - 1))

/-- SC3E_TEST macro: if the condition holds, continue with the rest of the
function body, else write the textual form of the condition into the reason
buffer and return 0. -/
def sc3_test (cond : Bool) (txt : String) (k : Bool × String) : Bool × String :=
  if cond then k else (false, SC3_BUFCOPY txt)

/-- SC3E_IS macro: query a sub-object is_* function; on false, write
"f(o): inner-reason" (bounded by sc3_snprintf to SC3_BUFSIZE) and return 0,
else continue with the rest of the function body. -/
def sc3_is (inner : Bool × String) (txt : String) (k : Bool × String) :
    Bool × String :=
  if inner.1 then k
  else (false, SC3_BUFCOPY (txt ++ ": " ++ inner.2))

/-- SC3E_YES macro: set the reason buffer to the empty string, return 1. -/
def sc3_yes : Bool × String := (true, "")

/-- Modelled from the spec: sc3_refcount.h is not part of the source tree.
The spec states a refcount is an integer that is at least 1 once setup;
sc3_refcount_is_valid checks that, never crashing (NULL gives false). -/
structure sc3_refcount where
  rc : Int
deriving DecidableEq, Repr

/-- Modelled from the spec: refcount validity predicate, in the uniform
is_* shape (boolean result plus reason-buffer contents). -/
def sc3_refcount_is_valid (r : Option sc3_refcount) : Bool × String :=
  match r with
  | none => (false, SC3_BUFCOPY "r != NULL")
  | some x => sc3_test (decide (1 ≤ x.rc)) "r->rc >= 1" sc3_yes

/-- Modelled from the spec: sc3_alloc.h is not part of the source tree.
An allocator has a two-phase lifecycle; for the mstamp predicates only its
setup status matters. -/
structure sc3_allocator where
  setup : Bool
deriving DecidableEq, Repr

/-- Modelled from the spec: allocator setup predicate; false (not a crash)
on NULL input. -/
def sc3_allocator_is_setup (a : Option sc3_allocator) : Bool × String :=
  match a with
  | none => (false, SC3_BUFCOPY "a != NULL")
  | some x => sc3_test x.setup "a->setup" sc3_yes

/-- Modelled from the spec: sc3_array.h is not part of the source tree.
An array object has a two-phase lifecycle; the mstamp predicates only query
its validity and setup status. -/
structure sc3_array where
  setup : Bool
deriving DecidableEq, Repr

/-- Modelled from the spec: array validity predicate; false on NULL. -/
def sc3_array_is_valid (a : Option sc3_array) : Bool × String :=
  match a with
  | none => (false, SC3_BUFCOPY "a != NULL")
  | some _ => sc3_yes

/-- Modelled from the spec: array setup predicate; false on NULL or when
the array is not setup. -/
def sc3_array_is_setup (a : Option sc3_array) : Bool × String :=
  match a with
  | none => (false, SC3_BUFCOPY "a != NULL")
  | some x => sc3_test x.setup "a->setup" sc3_yes

/-- struct sc3_mstamp of src/sc3_memstamp.c.  The current-stamp memory
pointer `cur` is modelled by whether it is non-NULL; the two sc3_array
members and the allocator are possibly-NULL sub-objects. -/
structure sc3_mstamp where
  rc : sc3_refcount
  aator : Option sc3_allocator
  setup : Bool
  scount : Int
  initzero : Bool
  per_stamp : Int
  esize : Nat
  ssize : Nat
  cur : Bool
  cur_snext : Int
  remember : Option sc3_array
  freed : Option sc3_array
deriving DecidableEq, Repr

/-- sc3_mstamp_is_valid of src/sc3_memstamp.c lines 53-71: NULL check,
refcount/allocator/array sub-checks, then the phase-dependent allocation
logic (not setup: cur is NULL; setup: cur non-NULL or ssize zero, and
cur_snext below per_stamp), ending in SC3E_YES. -/
def sc3_mstamp_is_valid (mst : Option sc3_mstamp) : Bool × String :=
  match mst with
  | none => (false, SC3_BUFCOPY "mst != NULL")
  | some m =>
    sc3_is (sc3_refcount_is_valid (some m.rc))
        "sc3_refcount_is_valid(&mst->rc)" (
      sc3_is (sc3_allocator_is_setup m.aator)
          "sc3_allocator_is_setup(mst->aator)" (
        sc3_is (sc3_array_is_valid m.remember)
            "sc3_array_is_valid(mst->remember)" (
          sc3_is (sc3_array_is_valid m.freed)
              "sc3_array_is_valid(mst->freed)" (
            if !m.setup then
              sc3_test (!m.cur) "mst->cur == NULL" sc3_yes
            else
              sc3_test (m.cur || decide (m.ssize = 0))
                  "mst->cur != NULL || mst->ssize == 0" (
                sc3_test (decide (m.cur_snext < m.per_stamp))
                    "mst->cur_snext < mst->per_stamp" sc3_yes)))))

/-- sc3_mstamp_is_new of src/sc3_memstamp.c lines 73-79: valid and not
setup.  The continuation passed in the NULL case is never reached because
sc3_mstamp_is_valid is false on NULL. -/
def sc3_mstamp_is_new (mst : Option sc3_mstamp) : Bool × String :=
  match mst with
  | none =>
    sc3_is (sc3_mstamp_is_valid none) "sc3_mstamp_is_valid(mst)" sc3_yes
  | some m =>
    sc3_is (sc3_mstamp_is_valid (some m)) "sc3_mstamp_is_valid(mst)" (
      sc3_test (!m.setup) "!mst->setup" sc3_yes)

/-- sc3_mstamp_is_setup of src/sc3_memstamp.c lines 81-89: valid, both
internal arrays setup, and the setup flag true. -/
def sc3_mstamp_is_setup (mst : Option sc3_mstamp) : Bool × String :=
  match mst with
  | none =>
    sc3_is (sc3_mstamp_is_valid none) "sc3_mstamp_is_valid(mst)" sc3_yes
  | some m =>
    sc3_is (sc3_mstamp_is_valid (some m)) "sc3_mstamp_is_valid(mst)" (
      sc3_is (sc3_array_is_setup m.remember)
          "sc3_array_is_setup(mst->remember)" (
        sc3_is (sc3_array_is_setup m.freed)
            "sc3_array_is_setup(mst->freed)" (
          sc3_test m.setup "mst->setup" sc3_yes)))

/-- enum sc3_error_kind of src/sc3_error.h lines 297-320. -/
inductive sc3_error_kind where
  | SC3_ERROR_FATAL
  | SC3_ERROR_WARNING
  | SC3_ERROR_RUNTIME
  | SC3_ERROR_BUG
  | SC3_ERROR_MEMORY
  | SC3_ERROR_NETWORK
  | SC3_ERROR_LEAK
  | SC3_ERROR_IO
  | SC3_ERROR_USER
  | SC3_ERROR_KIND_LAST
deriving DecidableEq, Repr

/-- Modelled from the spec: the sc3 error object (struct sc3_error, whose
defining sc3_error.c is not part of the source tree; sc3_error.h documents
it).  Fields: kind, bounded message, bounded location filename plus line,
optional owned stack (cause chain, acyclic by construction), refcount,
setup flag, and whether the object is heap-backed (created by
sc3_error_new) as opposed to a static sentinel. -/
inductive sc3_error where
  | mk (kind : sc3_error_kind) (errmsg : String) (filename : String)
       (line : Int) (stack : Option sc3_error) (rc : Int)
       (setup : Bool) (alloced : Bool)

/-- Kind field of an error object. -/
def sc3_error.kind : sc3_error → sc3_error_kind
  | .mk k _ _ _ _ _ _ _ => k

/-- Message field of an error object. -/
def sc3_error.errmsg : sc3_error → String
  | .mk _ m _ _ _ _ _ _ => m

/-- Location filename field of an error object. -/
def sc3_error.filename : sc3_error → String
  | .mk _ _ f _ _ _ _ _ => f

/-- Location line field of an error object. -/
def sc3_error.line : sc3_error → Int
  | .mk _ _ _ l _ _ _ _ => l

/-- Stack (cause) field of an error object. -/
def sc3_error.stack : sc3_error → Option sc3_error
  | .mk _ _ _ _ s _ _ _ => s

/-- Refcount field of an error object. -/
def sc3_error.rc : sc3_error → Int
  | .mk _ _ _ _ _ r _ _ => r

/-- Setup flag of an error object. -/
def sc3_error.setup : sc3_error → Bool
  | .mk _ _ _ _ _ _ s _ => s

/-- Heap-backed flag of an error object (false for static sentinels). -/
def sc3_error.alloced : sc3_error → Bool
  | .mk _ _ _ _ _ _ _ a => a

/-- Replace the refcount of an error object. -/
def sc3_error.withRc (e : sc3_error) (r : Int) : sc3_error :=
  match e with
  | .mk k m f l s _ su al => .mk k m f l s r su al

/-- Modelled from the spec: the static sentinel error of kind BUG returned
by sc3_error_new_bug when internal allocation fails ("a small set of
static, non-heap sentinel error objects"); fully setup, never mutated. -/
def sc3_static_bug : sc3_error :=
  .mk .SC3_ERROR_BUG "static bug fallback" "" 0 none 1 true false

/-- Modelled from the spec: the static sentinel error of kind FATAL
returned by sc3_error_new_stack when internal allocation fails. -/
def sc3_static_fatal : sc3_error :=
  .mk .SC3_ERROR_FATAL "static fatal fallback" "" 0 none 1 true false

/-- Modelled from the spec: sc3_error_new_kind (declared in sc3_error.h
lines 536-538, implementation not in the source tree).  Creates a fully
setup error of the given kind copying filename and message into bounded
buffers; if internal allocation fails (modelled by the allocOk flag) it
returns a working static sentinel instead. -/
def sc3_error_new_kind (allocOk : Bool) (kind : sc3_error_kind)
    (filename : String) (line : Int) (errmsg : String) : sc3_error :=
  if allocOk then
    .mk kind (SC3_BUFCOPY errmsg) (SC3_BUFCOPY filename) line none 1
       true true
  else
    sc3_static_bug

/-- Modelled from the spec: sc3_error_new_bug (sc3_error.h lines 551-552),
a fully setup error of kind SC3_ERROR_BUG, falling back to the static
sentinel when allocation fails. -/
def sc3_error_new_bug (allocOk : Bool) (filename : String) (line : Int)
    (errmsg : String) : sc3_error :=
  if allocOk then
    .mk .SC3_ERROR_BUG (SC3_BUFCOPY errmsg) (SC3_BUFCOPY filename) line
       none 1 true true
  else
    sc3_static_bug

/-- Modelled from the spec: sc3_error_new_stack (sc3_error.h lines
567-569).  Takes ownership of the stack handle (the caller pointer is
NULLed, returned as the second component), wraps it as the cause of a new
fully setup error of kind SC3_ERROR_FATAL, and falls back to the static
sentinel when allocation fails. -/
def sc3_error_new_stack (allocOk : Bool) (pstack : Option sc3_error)
    (filename : String) (line : Int) (errmsg : String) :
    sc3_error × Option sc3_error :=
  if allocOk then
    (.mk .SC3_ERROR_FATAL (SC3_BUFCOPY errmsg) (SC3_BUFCOPY filename)
        line pstack 1 true true, none)
  else
    (sc3_static_fatal, none)

/-- Modelled from the spec: sc3_error_ref (sc3_error.h lines 483-489).
Increments the refcount of a setup heap-backed error; does nothing on a
static sentinel.  Returns the updated object and the error return. -/
def sc3_error_ref (e : sc3_error) : sc3_error × Option sc3_error :=
  if !e.alloced then (e, none)
  else if !e.setup then
    (e, some (sc3_error_new_bug true "sc3_error.c" 0
        "sc3_error_is_setup(e)"))
  else (e.withRc (e.rc + 1), none)

/-- Modelled from the spec: sc3_error_unref (sc3_error.h lines 491-499).
Decrements the refcount; at zero the object is deallocated and the handle
set to NULL.  Does nothing on a static sentinel.  Result: the new handle
value and the error return. -/
def sc3_error_unref (e : sc3_error) : Option sc3_error × Option sc3_error :=
  if !e.alloced then (some e, none)
  else if 1 < e.rc then (some (e.withRc (e.rc - 1)), none)
  else (none, none)

/-- Result of sc3_error_destroy: the value written back into the handle,
the returned error, and whether the object memory was deallocated. -/
structure destroy_result where
  handle : Option sc3_error
  ret : Option sc3_error
  freed : Bool

/-- Modelled from the spec: sc3_error_destroy (sc3_error.h lines 501-512).
Requires a setup error with one remaining reference and deallocates it,
NULLing the handle.  With more than one reference it returns an error of
kind SC3_ERROR_LEAK instead of silently succeeding.  Does nothing on a
static sentinel (handle NULLed, success). -/
def sc3_error_destroy (e : sc3_error) : destroy_result :=
  if !e.alloced then ⟨none, none, false⟩
  else if !e.setup then
    ⟨some e, some (sc3_error_new_bug true "sc3_error.c" 0
        "sc3_error_is_setup(e)"), false⟩
  else if 1 < e.rc then
    ⟨none, some (sc3_error_new_kind true .SC3_ERROR_LEAK "sc3_error.c" 0
        "error with multiple references"), false⟩
  else ⟨none, none, true⟩

/-- Whether a kind is classified fatal: FATAL, BUG, MEMORY or NETWORK
(sc3_error.h lines 380-383). -/
def sc3_error_kind_is_fatal (k : sc3_error_kind) : Bool :=
  match k with
  | .SC3_ERROR_FATAL => true
  | .SC3_ERROR_BUG => true
  | .SC3_ERROR_MEMORY => true
  | .SC3_ERROR_NETWORK => true
  | _ => false

/-- Modelled from the spec: sc3_error_is_setup (sc3_error.h lines
371-378): error not NULL, consistent and setup. -/
def sc3_error_is_setup (e : Option sc3_error) : Bool × String :=
  match e with
  | none => (false, SC3_BUFCOPY "e != NULL")
  | some x => sc3_test x.setup "e->setup" sc3_yes

/-- Modelled from the spec: sc3_error_is_fatal (sc3_error.h lines
380-390): true iff the error is not NULL, setup, and of a fatal kind. -/
def sc3_error_is_fatal (e : Option sc3_error) : Bool × String :=
  match e with
  | none => (false, SC3_BUFCOPY "e != NULL")
  | some x =>
    sc3_is (sc3_error_is_setup (some x)) "sc3_error_is_setup(e)" (
      sc3_test (sc3_error_kind_is_fatal x.kind)
          "sc3_error_kind_is_fatal(e->kind)" sc3_yes)

/-- Modelled from the spec: sc3_error_is_leak (sc3_error.h lines
392-398): true iff the error is not NULL, setup, and of kind
SC3_ERROR_LEAK. -/
def sc3_error_is_leak (e : Option sc3_error) : Bool × String :=
  match e with
  | none => (false, SC3_BUFCOPY "e != NULL")
  | some x =>
    sc3_is (sc3_error_is_setup (some x)) "sc3_error_is_setup(e)" (
      sc3_test (decide (x.kind = .SC3_ERROR_LEAK))
          "e->kind == SC3_ERROR_LEAK" sc3_yes)

/-- Modelled from the spec: sc3_error_get_kind (sc3_error.h lines
616-623).  The output cell is modelled as an Option (none for a NULL
pointer); result is the new cell contents and the error return. -/
def sc3_error_get_kind (e : Option sc3_error)
    (pk : Option sc3_error_kind) :
    Option sc3_error_kind × Option sc3_error :=
  match e with
  | none =>
    (pk, some (sc3_error_new_bug true "sc3_error.c" 0
        "sc3_error_is_setup(e)"))
  | some x =>
    if x.setup then
      ((if pk.isSome then some x.kind else none), none)
    else
      (pk, some (sc3_error_new_bug true "sc3_error.c" 0
          "sc3_error_is_setup(e)"))

/-- SC3E_SET macro of src/sc3_error.h lines 212-217.  A sub-call
expression is a state transformer returning the new state and an error or
NULL.  The macro evaluates the expression; a non-NULL result is stacked
into a fatal error (sc3_error_new_stack with the given location and the
textual form of the expression) which becomes the accumulator; a NULL
result makes the accumulator NULL.  Result: new state and accumulator. -/
def SC3E_SET {σ : Type} (allocOk : Bool) (f : σ → σ × Option sc3_error)
    (file : String) (line : Int) (txt : String) (s : σ) :
    σ × Option sc3_error :=
  let r := f s
  match r.2 with
  | some e0 =>
    (r.1, some (sc3_error_new_stack allocOk (some e0) file line txt).1)
  | none => (r.1, none)

/-- SC3E_NULL_SET macro of src/sc3_error.h lines 223-225.  Performs
SC3E_SET only when the accumulator is NULL; when the accumulator is
already set, the expression is not evaluated at all (the state is
untouched) and the accumulator keeps its first value. -/
def SC3E_NULL_SET {σ : Type} (allocOk : Bool) (e : Option sc3_error)
    (f : σ → σ × Option sc3_error) (file : String) (line : Int)
    (txt : String) (s : σ) : σ × Option sc3_error :=
  match e with
  | none => SC3E_SET allocOk f file line txt s
  | some _ => (s, e)

/-- Message built by SC3E_DEMIS (src/sc3_error.h lines 159-165) when the
queried predicate fails: "f(o): inner-reason", bounded by sc3_snprintf. -/
def SC3E_DEMIS_msg (fname otxt innerReason : String) : String :=
  SC3_BUFCOPY (fname ++ "(" ++ otxt ++ "): " ++ innerReason)

/-- sc3_mstamp_set_elem_size of src/sc3_memstamp.c lines 91-97.
SC3A_IS (sc3_mstamp_is_new, mst) expands to SC3E_DEMIS in a debug build
and to SC3_NOOP in a release build (sc3_error.h lines 102-118); on a
failed check a BUG error is returned immediately and the arena is left
unchanged, otherwise the element size is recorded and NULL returned.  The
allocOk flag models whether internal allocation inside
sc3_error_new_bug succeeds. -/
def sc3_mstamp_set_elem_size (debug allocOk : Bool) (mst : sc3_mstamp)
    (esize : Nat) : sc3_mstamp × Option sc3_error :=
  if debug && !(sc3_mstamp_is_new (some mst)).1 then
    (mst, some (sc3_error_new_bug allocOk "sc3_memstamp.c" 94
        (SC3E_DEMIS_msg "sc3_mstamp_is_new" "mst"
          (sc3_mstamp_is_new (some mst)).2)))
  else
    ({ mst with esize := esize }, none)

/-- sc3_mstamp_set_stamp_size of src/sc3_memstamp.c lines 99-105, with
the same assertion discipline as sc3_mstamp_set_elem_size. -/
def sc3_mstamp_set_stamp_size (debug allocOk : Bool) (mst : sc3_mstamp)
    (ssize : Nat) : sc3_mstamp × Option sc3_error :=
  if debug && !(sc3_mstamp_is_new (some mst)).1 then
    (mst, some (sc3_error_new_bug allocOk "sc3_memstamp.c" 102
        (SC3E_DEMIS_msg "sc3_mstamp_is_new" "mst"
          (sc3_mstamp_is_new (some mst)).2)))
  else
    ({ mst with ssize := ssize }, none)

/-- sc3_mstamp_set_initzero of src/sc3_memstamp.c lines 107-113, with
the same assertion discipline as sc3_mstamp_set_elem_size. -/
def sc3_mstamp_set_initzero (debug allocOk : Bool) (mst : sc3_mstamp)
    (initzero : Bool) : sc3_mstamp × Option sc3_error :=
  if debug && !(sc3_mstamp_is_new (some mst)).1 then
    (mst, some (sc3_error_new_bug allocOk "sc3_memstamp.c" 110
        (SC3E_DEMIS_msg "sc3_mstamp_is_new" "mst"
          (sc3_mstamp_is_new (some mst)).2)))
  else
    ({ mst with initzero := initzero }, none)

/-- sc3_mstamp_get_elem_size of src/sc3_memstamp.c lines 115-125.  The
output pointer is modelled as an optional cell (none for NULL).  First
SC3E_RETOPT writes 0 into a non-NULL cell; then SC3A_IS checks the setup
precondition in a debug build, returning a BUG error with the cell still
reading 0; then the stored value is written into a non-NULL cell.  The
outer none models the undefined behavior of dereferencing a NULL arena in
a release build. -/
def sc3_mstamp_get_elem_size (debug : Bool) (mst : Option sc3_mstamp)
    (pe : Option Nat) : Option (Option Nat × Option sc3_error) :=
  let cell : Option Nat := pe.map (fun _ => 0)
  if debug && !(sc3_mstamp_is_setup mst).1 then
    some (cell, some (sc3_error_new_bug true "sc3_memstamp.c" 119
        (SC3E_DEMIS_msg "sc3_mstamp_is_setup" "mst"
          (sc3_mstamp_is_setup mst).2)))
  else
    match mst with
    | none => none
    | some m => some ((cell.map (fun _ => m.esize)), none)

/-- sc3_mstamp_get_stamp_size of src/sc3_memstamp.c lines 127-137, same
shape as sc3_mstamp_get_elem_size. -/
def sc3_mstamp_get_stamp_size (debug : Bool) (mst : Option sc3_mstamp)
    (ps : Option Nat) : Option (Option Nat × Option sc3_error) :=
  let cell : Option Nat := ps.map (fun _ => 0)
  if debug && !(sc3_mstamp_is_setup mst).1 then
    some (cell, some (sc3_error_new_bug true "sc3_memstamp.c" 131
        (SC3E_DEMIS_msg "sc3_mstamp_is_setup" "mst"
          (sc3_mstamp_is_setup mst).2)))
  else
    match mst with
    | none => none
    | some m => some ((cell.map (fun _ => m.ssize)), none)

/-- sc3_mstamp_get_stamp_count of src/sc3_memstamp.c lines 139-149, same
shape as sc3_mstamp_get_elem_size with an int-valued cell. -/
def sc3_mstamp_get_stamp_count (debug : Bool) (mst : Option sc3_mstamp)
    (pc : Option Int) : Option (Option Int × Option sc3_error) :=
  let cell : Option Int := pc.map (fun _ => 0)
  if debug && !(sc3_mstamp_is_setup mst).1 then
    some (cell, some (sc3_error_new_bug true "sc3_memstamp.c" 143
        (SC3E_DEMIS_msg "sc3_mstamp_is_setup" "mst"
          (sc3_mstamp_is_setup mst).2)))
  else
    match mst with
    | none => none
    | some m => some ((cell.map (fun _ => m.scount)), none)

/-- Modelled from the spec: the allocation state of a setup stamp arena
for sc3_mstamp_alloc and sc3_mstamp_free, whose implementation is not in
the source tree (src/sc3_memstamp.c is present only up to the read
accessors).  An element address is the pair (stamp index, byte offset
inside the stamp); distinct stamps occupy disjoint memory. -/
structure mstamp_state where
  esize : Nat
  per_stamp : Nat
  scount : Nat
  cur : Option Nat
  cur_snext : Nat
  freelist : List (Nat × Nat)
deriving DecidableEq, Repr

/-- Modelled from the spec: sc3_mstamp_alloc.  Step 1: a non-empty free
list is popped LIFO and its top returned.  Step 2: with no current stamp
or a full one, a fresh stamp is requested, appended, made current with
next index 0, and the stamp count incremented.  Step 3: the address of
slot cur_snext of the current stamp is returned and cur_snext
incremented. -/
def sc3_mstamp_alloc (m : mstamp_state) : mstamp_state × (Nat × Nat) :=
  match m.freelist with
  | a :: rest => ({ m with freelist := rest }, a)
  | [] =>
    let m1 :=
      if m.cur = none || m.cur_snext == m.per_stamp then
        { m with cur := some m.scount, cur_snext := 0,
                 scount := m.scount + 1 }
      else m
    ({ m1 with cur_snext := m1.cur_snext + 1 },
      (m1.cur.getD 0, m1.cur_snext * m1.esize))

/-- Modelled from the spec: sc3_mstamp_free pushes the given element
address onto the free list without validation or zeroing. -/
def sc3_mstamp_free (m : mstamp_state) (a : Nat × Nat) : mstamp_state :=
  { m with freelist := a :: m.freelist }

/-- MPI_SUCCESS of the dummy MPI layer. -/
def MPI_SUCCESS : Int := 0

/-- MPI_Init of src/sc_dummympi.c lines 23-27: ignores its arguments and
returns MPI_SUCCESS. -/
def MPI_Init (argc : Option Int) (argv : Option (List String)) : Int :=
  MPI_SUCCESS

/-- MPI_Finalize of src/sc_dummympi.c lines 29-33: returns
MPI_SUCCESS. -/
def MPI_Finalize : Int := MPI_SUCCESS

/-- MPI_Comm_size of src/sc_dummympi.c lines 35-41: writes 1 into the
size cell and returns MPI_SUCCESS for every communicator.  Result: value
written and return code. -/
def MPI_Comm_size (comm : Int) : Int × Int := (1, MPI_SUCCESS)

/-- MPI_Comm_rank of src/sc_dummympi.c lines 43-49: writes 0 into the
rank cell and returns MPI_SUCCESS for every communicator. -/
def MPI_Comm_rank (comm : Int) : Int × Int := (0, MPI_SUCCESS)

/-- Discipline of the reason buffer of an is_* query: the empty string is
written on a true answer, and a non-empty reason of length below
SC3_BUFSIZE on a false answer. -/
def reason_ok (p : Bool × String) : Prop :=
  (p.1 = true → p.2 = "") ∧
  (p.1 = false → p.2 ≠ "" ∧ p.2.length < SC3_BUFSIZE)

/-- A structurally consistent mstamp arena in phase NEW (not setup, no
current stamp). -/
def mstamp_new_ex : sc3_mstamp :=
  ⟨⟨1⟩, some ⟨true⟩, false, 0, false, 0, 0, 0, false, -1,
    some ⟨false⟩, some ⟨false⟩⟩

/-- A structurally consistent mstamp arena in phase SETUP with one active
stamp. -/
def mstamp_setup_ex : sc3_mstamp :=
  ⟨⟨1⟩, some ⟨true⟩, true, 1, false, 4, 8, 32, true, 0,
    some ⟨true⟩, some ⟨true⟩⟩

/-- A setup heap-backed error object with one reference. -/
def error_single_ref_ex : sc3_error :=
  .mk .SC3_ERROR_FATAL "original failure" "caller.c" 10 none 1 true true

/-- A setup heap-backed error object with two references. -/
def error_double_ref_ex : sc3_error :=
  .mk .SC3_ERROR_FATAL "original failure" "caller.c" 10 none 2 true true

/-- A cleanup sub-call with an observable state effect (incrementing a
counter) that fails, for exercising the accumulation macros. -/
def incr_subcall : Nat → Nat × Option sc3_error :=
  fun n => (n + 1, some sc3_static_bug)

/-- The freshly setup arena of the LIFO law scenario: elem_size 8,
elements_per_stamp 4, no stamp allocated yet, empty free list. -/
def c8_m0 : mstamp_state := ⟨8, 4, 0, none, 0, []⟩

/-- First allocation of the LIFO scenario (element a). -/
def c8_s1 : mstamp_state × (Nat × Nat) := sc3_mstamp_alloc c8_m0

/-- Second allocation of the LIFO scenario (element b). -/
def c8_s2 : mstamp_state × (Nat × Nat) := sc3_mstamp_alloc c8_s1.1

/-- Third allocation of the LIFO scenario (element c). -/
def c8_s3 : mstamp_state × (Nat × Nat) := sc3_mstamp_alloc c8_s2.1

/-- Fourth allocation of the LIFO scenario (element d). -/
def c8_s4 : mstamp_state × (Nat × Nat) := sc3_mstamp_alloc c8_s3.1

/-- The arena after freeing element b. -/
def c8_after_free : mstamp_state := sc3_mstamp_free c8_s4.1 c8_s2.2

/-- The fifth allocation, taken after freeing b. -/
def c8_s5 : mstamp_state × (Nat × Nat) := sc3_mstamp_alloc c8_after_free

theorem sc3_is_fst (inner : Bool × String) (txt : String)
    (k : Bool × String) : (sc3_is inner txt k).1 = (inner.1 && k.1) := by
  unfold sc3_is
  cases h : inner.1 <;> simp [h]

theorem sc3_test_fst (c : Bool) (txt : String) (k : Bool × String) :
    (sc3_test c txt k).1 = (c && k.1) := by
  unfold sc3_test
  cases c <;> simp

theorem SC3_BUFCOPY_length (s : String) :
    (SC3_BUFCOPY s).length = min (SC3_BUFSIZE - 1) s.length := by
  unfold SC3_BUFCOPY
  rw [String.length_mk, List.length_take]
  rfl

theorem string_ne_empty_of_length_pos {s : String} (h : 0 < s.length) :
    s ≠ "" := by
  intro he
  rw [he, String.length_empty] at h
  exact Nat.lt_irrefl 0 h

theorem SC3_BUFCOPY_ne_empty {s : String} (h : 0 < s.length) :
    SC3_BUFCOPY s ≠ "" := by
  apply string_ne_empty_of_length_pos
  rw [SC3_BUFCOPY_length]
  exact lt_min (by norm_num [SC3_BUFSIZE]) h

theorem SC3_BUFCOPY_lt (s : String) :
    (SC3_BUFCOPY s).length < SC3_BUFSIZE := by
  rw [SC3_BUFCOPY_length]
  exact lt_of_le_of_lt (min_le_left _ _) (by norm_num [SC3_BUFSIZE])

theorem reason_ok_yes : reason_ok sc3_yes := by
  constructor <;> simp [sc3_yes]

theorem reason_ok_no {txt : String} (h : 0 < txt.length) :
    reason_ok (false, SC3_BUFCOPY txt) :=
  ⟨by simp, fun _ => ⟨SC3_BUFCOPY_ne_empty h, SC3_BUFCOPY_lt txt⟩⟩

theorem reason_ok_test {c : Bool} {txt : String} {k : Bool × String}
    (h : 0 < txt.length) (hk : reason_ok k) :
    reason_ok (sc3_test c txt k) := by
  unfold sc3_test
  cases c
  · simpa using reason_ok_no h
  · simpa using hk

theorem reason_ok_is {inner : Bool × String} {txt : String}
    {k : Bool × String} (h : 0 < txt.length) (hk : reason_ok k) :
    reason_ok (sc3_is inner txt k) := by
  unfold sc3_is
  cases hi : inner.1
  · simp only [Bool.false_eq_true, if_false]
    apply reason_ok_no
    rw [String.length_append, String.length_append]
    have h2 : (": " : String).length = 2 := rfl
    omega
  · simpa using hk

theorem reason_ok_refcount (r : Option sc3_refcount) :
    reason_ok (sc3_refcount_is_valid r) := by
  cases r
  · exact reason_ok_no (by decide)
  · exact reason_ok_test (by decide) reason_ok_yes

theorem reason_ok_allocator (a : Option sc3_allocator) :
    reason_ok (sc3_allocator_is_setup a) := by
  cases a
  · exact reason_ok_no (by decide)
  · exact reason_ok_test (by decide) reason_ok_yes

theorem reason_ok_array_valid (a : Option sc3_array) :
    reason_ok (sc3_array_is_valid a) := by
  cases a
  · exact reason_ok_no (by decide)
  · exact reason_ok_yes

theorem reason_ok_array_setup (a : Option sc3_array) :
    reason_ok (sc3_array_is_setup a) := by
  cases a
  · exact reason_ok_no (by decide)
  · exact reason_ok_test (by decide) reason_ok_yes

theorem reason_ok_mstamp_is_valid (mst : Option sc3_mstamp) :
    reason_ok (sc3_mstamp_is_valid mst) := by
  cases mst with
  | none => exact reason_ok_no (by decide)
  | some m =>
    unfold sc3_mstamp_is_valid
    apply reason_ok_is (by decide)
    apply reason_ok_is (by decide)
    apply reason_ok_is (by decide)
    apply reason_ok_is (by decide)
    cases hm : m.setup
    · simp only [Bool.not_false, if_true]
      exact reason_ok_test (by decide) reason_ok_yes
    · simp only [Bool.not_true, if_false]
      exact reason_ok_test (by decide)
        (reason_ok_test (by decide) reason_ok_yes)

theorem reason_ok_mstamp_is_new (mst : Option sc3_mstamp) :
    reason_ok (sc3_mstamp_is_new mst) := by
  cases mst with
  | none =>
    unfold sc3_mstamp_is_new
    exact reason_ok_is (by decide) reason_ok_yes
  | some m =>
    unfold sc3_mstamp_is_new
    exact reason_ok_is (by decide)
      (reason_ok_test (by decide) reason_ok_yes)

theorem reason_ok_mstamp_is_setup (mst : Option sc3_mstamp) :
    reason_ok (sc3_mstamp_is_setup mst) := by
  cases mst with
  | none =>
    unfold sc3_mstamp_is_setup
    exact reason_ok_is (by decide) reason_ok_yes
  | some m =>
    unfold sc3_mstamp_is_setup
    exact reason_ok_is (by decide)
      (reason_ok_is (by decide)
        (reason_ok_is (by decide)
          (reason_ok_test (by decide) reason_ok_yes)))

theorem mstamp_is_new_true_imp {m : sc3_mstamp}
    (h : (sc3_mstamp_is_new (some m)).1 = true) : m.setup = false := by
  unfold sc3_mstamp_is_new at h
  rw [sc3_is_fst, sc3_test_fst] at h
  simp only [Bool.and_eq_true, Bool.not_eq_true'] at h
  exact h.2.1

theorem mstamp_is_setup_true_imp {m : sc3_mstamp}
    (h : (sc3_mstamp_is_setup (some m)).1 = true) : m.setup = true := by
  unfold sc3_mstamp_is_setup at h
  rw [sc3_is_fst, sc3_is_fst, sc3_is_fst, sc3_test_fst] at h
  simp only [Bool.and_eq_true] at h
  exact h.2.2.2.1

/-- C1: the query predicates sc3_mstamp_is_valid, sc3_mstamp_is_new and
sc3_mstamp_is_setup are total boolean functions on every input: they
return false (not a crash) on a NULL handle and on a handle in the wrong
phase, and the reason written into a non-NULL reason buffer is the empty
string on a true answer and a non-empty string of length below
SC3_BUFSIZE on a false answer. -/
theorem c1_query_predicates_total_and_safe :
    ((sc3_mstamp_is_valid none).1 = false
      ∧ (sc3_mstamp_is_new none).1 = false
      ∧ (sc3_mstamp_is_setup none).1 = false)
    ∧ (∀ m : sc3_mstamp, m.setup = true →
        (sc3_mstamp_is_new (some m)).1 = false)
    ∧ (∀ m : sc3_mstamp, m.setup = false →
        (sc3_mstamp_is_setup (some m)).1 = false)
    ∧ (∀ mst : Option sc3_mstamp,
        reason_ok (sc3_mstamp_is_valid mst)
        ∧ reason_ok (sc3_mstamp_is_new mst)
        ∧ reason_ok (sc3_mstamp_is_setup mst)) := by
  refine ⟨⟨by decide, by decide, by decide⟩, ?_, ?_, ?_⟩
  · intro m hm
    cases h : (sc3_mstamp_is_new (some m)).1
    · rfl
    · rw [mstamp_is_new_true_imp h] at hm
      exact absurd hm (by decide)
  · intro m hm
    cases h : (sc3_mstamp_is_setup (some m)).1
    · rfl
    · rw [mstamp_is_setup_true_imp h] at hm
      exact absurd hm (by decide)
  · intro mst
    exact ⟨reason_ok_mstamp_is_valid mst, reason_ok_mstamp_is_new mst,
      reason_ok_mstamp_is_setup mst⟩

/-- C1 witness: the wrong-phase clauses of
c1_query_predicates_total_and_safe evaluated at a concrete setup arena
and a concrete new arena. -/
theorem c1_witness :
    (sc3_mstamp_is_new (some mstamp_setup_ex)).1 = false
    ∧ (sc3_mstamp_is_setup (some mstamp_new_ex)).1 = false :=
  ⟨c1_query_predicates_total_and_safe.2.1 mstamp_setup_ex rfl,
   c1_query_predicates_total_and_safe.2.2.1 mstamp_new_ex rfl⟩

/-- C6: the invariant checked by sc3_mstamp_is_valid: a valid setup arena
with a present current stamp has cur_snext strictly below per_stamp, and
a valid arena that is not setup has a NULL current stamp pointer. -/
theorem c6_valid_phase_invariant :
    ∀ m : sc3_mstamp, (sc3_mstamp_is_valid (some m)).1 = true →
    (m.setup = true → m.cur = true → m.cur_snext < m.per_stamp)
    ∧ (m.setup = false → m.cur = false) := by
  intro m h
  constructor
  · intro hs hc
    by_contra hlt
    have hfalse : (sc3_mstamp_is_valid (some m)).1 = false := by
      unfold sc3_mstamp_is_valid
      rw [sc3_is_fst, sc3_is_fst, sc3_is_fst, sc3_is_fst, hs]
      simp [sc3_test_fst, hlt]
    rw [hfalse] at h
    exact absurd h (by decide)
  · intro hs
    by_contra hcur
    have hc : m.cur = true := by
      revert hcur
      cases m.cur <;> simp
    have hfalse : (sc3_mstamp_is_valid (some m)).1 = false := by
      unfold sc3_mstamp_is_valid
      rw [sc3_is_fst, sc3_is_fst, sc3_is_fst, sc3_is_fst, hs]
      simp [sc3_test_fst, hc]
    rw [hfalse] at h
    exact absurd h (by decide)

/-- C6 witness: the invariant clauses evaluated at a concrete valid setup
arena and a concrete valid new arena. -/
theorem c6_witness :
    mstamp_setup_ex.cur_snext < mstamp_setup_ex.per_stamp
    ∧ mstamp_new_ex.cur = false :=
  ⟨(c6_valid_phase_invariant mstamp_setup_ex (by decide)).1 rfl rfl,
   (c6_valid_phase_invariant mstamp_new_ex (by decide)).2 rfl⟩

/-- C9: the single-process MPI stand-in reports exactly one process with
rank 0 and treats every call as a no-op success: MPI_Init and
MPI_Finalize return MPI_SUCCESS for every input, MPI_Comm_size writes 1
and MPI_Comm_rank writes 0 into the output cell and both return
MPI_SUCCESS for every communicator. -/
theorem c9_dummympi_single_process :
    ∀ (comm : Int) (argc : Option Int) (argv : Option (List String)),
    MPI_Init argc argv = MPI_SUCCESS
    ∧ MPI_Finalize = MPI_SUCCESS
    ∧ MPI_Comm_size comm = (1, MPI_SUCCESS)
    ∧ MPI_Comm_rank comm = (0, MPI_SUCCESS) := by
  intro comm argc argv
  exact ⟨rfl, rfl, rfl, rfl⟩

/-- C2 counterexample: with the accumulator already set, SC3E_NULL_SET
does not evaluate the sub-call expression, so its state effect
(incrementing the counter) does not happen — refuting the clause that the
cleanup sub-call expressions are still all evaluated. -/
theorem c2_counterexample :
    (SC3E_NULL_SET true (some sc3_static_bug) incr_subcall "cleanup.c" 7
        "incr_subcall" 0).1 ≠ (incr_subcall 0).1
    ∧ (SC3E_NULL_SET true (some sc3_static_bug) incr_subcall "cleanup.c" 7
        "incr_subcall" 0).1 = 0
    ∧ (incr_subcall 0).1 = 1 := by
  refine ⟨?_, rfl, rfl⟩
  intro h
  exact absurd h (by decide)

/-- C2 (amended): with the accumulator absent, a failing sub-call makes
the accumulator that failure stacked into a fatal error (preserving it as
the cause when allocation succeeds); with the accumulator already set,
SC3E_NULL_SET discards later failures, preserving the first cause, and
does not evaluate the sub-call expression at all (the state is left
untouched). -/
theorem c2_accumulation_discipline :
    ∀ (σ : Type) (allocOk : Bool) (f : σ → σ × Option sc3_error)
      (file : String) (line : Int) (txt : String) (s s1 : σ)
      (e0 eacc : sc3_error),
    (f s = (s1, some e0) →
      SC3E_NULL_SET allocOk none f file line txt s
        = (s1, some (sc3_error_new_stack allocOk (some e0) file line
            txt).1)
      ∧ (sc3_error_new_stack allocOk (some e0) file line txt).1.kind
          = .SC3_ERROR_FATAL
      ∧ (allocOk = true →
          (sc3_error_new_stack allocOk (some e0) file line txt).1.stack
            = some e0))
    ∧ SC3E_NULL_SET allocOk (some eacc) f file line txt s
        = (s, some eacc) := by
  intro σ allocOk f file line txt s s1 e0 eacc
  constructor
  · intro hf
    refine ⟨?_, ?_, ?_⟩
    · simp [SC3E_NULL_SET, SC3E_SET, hf]
    · cases allocOk <;> rfl
    · intro ha
      rw [ha]
      rfl
  · rfl

/-- C2 witness: the amended accumulation discipline evaluated at a
concrete failing sub-call with counter state 5: a set accumulator is
preserved with the state untouched, and an absent accumulator picks up
the stacked failure with the state effect performed. -/
theorem c2_witness :
    SC3E_NULL_SET true (some sc3_static_bug) incr_subcall "cleanup.c" 7
        "incr_subcall" 5 = (5, some sc3_static_bug)
    ∧ SC3E_NULL_SET true none incr_subcall "cleanup.c" 7 "incr_subcall" 5
        = (6, some (sc3_error_new_stack true (some sc3_static_bug)
            "cleanup.c" 7 "incr_subcall").1) :=
  ⟨(c2_accumulation_discipline Nat true incr_subcall "cleanup.c" 7
      "incr_subcall" 5 6 sc3_static_bug sc3_static_bug).2,
   ((c2_accumulation_discipline Nat true incr_subcall "cleanup.c" 7
      "incr_subcall" 5 6 sc3_static_bug sc3_static_bug).1 rfl).1⟩

/-- C3: sc3_error_destroy on a setup heap-backed error with more than one
reference returns a non-NULL error of kind SC3_ERROR_LEAK without
deallocating, and on an error with exactly one reference deallocates the
object, NULLs the handle and returns NULL (success). -/
theorem c3_destroy_refcount_discipline :
    ∀ e : sc3_error, e.alloced = true → e.setup = true →
    (1 < e.rc →
      (sc3_error_destroy e).ret.map sc3_error.kind
        = some .SC3_ERROR_LEAK
      ∧ (sc3_error_destroy e).ret ≠ none
      ∧ (sc3_error_destroy e).freed = false)
    ∧ (e.rc = 1 →
      (sc3_error_destroy e).handle = none
      ∧ (sc3_error_destroy e).ret = none
      ∧ (sc3_error_destroy e).freed = true) := by
  intro e ha hs
  constructor
  · intro hrc
    simp [sc3_error_destroy, ha, hs, hrc, sc3_error_new_kind,
      sc3_error.kind]
  · intro hrc
    simp [sc3_error_destroy, ha, hs, hrc]

/-- C3 witness: destroy evaluated at a concrete setup error with two
references (leak of kind SC3_ERROR_LEAK) and at one with a single
reference (clean deallocation). -/
theorem c3_witness :
    (sc3_error_destroy error_double_ref_ex).ret.map sc3_error.kind
      = some .SC3_ERROR_LEAK
    ∧ (sc3_error_destroy error_single_ref_ex).handle = none
    ∧ (sc3_error_destroy error_single_ref_ex).ret = none
    ∧ (sc3_error_destroy error_single_ref_ex).freed = true :=
  ⟨((c3_destroy_refcount_discipline error_double_ref_ex rfl rfl).1
      (by norm_num [error_double_ref_ex, sc3_error.rc])).1,
   ((c3_destroy_refcount_discipline error_single_ref_ex rfl rfl).2
      rfl).1,
   ((c3_destroy_refcount_discipline error_single_ref_ex rfl rfl).2
      rfl).2.1,
   ((c3_destroy_refcount_discipline error_single_ref_ex rfl rfl).2
      rfl).2.2⟩

/-- C4: sc3_error_new_bug and sc3_error_new_stack always return a fully
setup, usable error object, falling back to the static sentinel exactly
when internal allocation fails, so reporting an error can never itself
fail; ref, unref and destroy applied to a static sentinel are no-ops that
leave the sentinel unchanged (sentinels are never mutated). -/
theorem c4_error_constructors_never_fail :
    ∀ (allocOk : Bool) (fn : String) (ln : Int) (ms : String)
      (stk : Option sc3_error),
    (sc3_error_new_bug allocOk fn ln ms).setup = true
    ∧ (sc3_error_is_setup (some (sc3_error_new_bug allocOk fn ln ms))).1
        = true
    ∧ (sc3_error_new_stack allocOk stk fn ln ms).1.setup = true
    ∧ (sc3_error_new_stack allocOk stk fn ln ms).2 = none
    ∧ (allocOk = false →
        sc3_error_new_bug allocOk fn ln ms = sc3_static_bug
        ∧ (sc3_error_new_stack allocOk stk fn ln ms).1
            = sc3_static_fatal)
    ∧ sc3_error_ref sc3_static_bug = (sc3_static_bug, none)
    ∧ sc3_error_unref sc3_static_bug = (some sc3_static_bug, none)
    ∧ (sc3_error_destroy sc3_static_bug).ret = none
    ∧ (sc3_error_destroy sc3_static_bug).freed = false
    ∧ sc3_error_ref sc3_static_fatal = (sc3_static_fatal, none)
    ∧ sc3_error_unref sc3_static_fatal = (some sc3_static_fatal, none)
    ∧ (sc3_error_destroy sc3_static_fatal).ret = none
    ∧ (sc3_error_destroy sc3_static_fatal).freed = false := by
  intro allocOk fn ln ms stk
  refine ⟨?_, ?_, ?_, ?_, ?_, rfl, rfl, rfl, rfl, rfl, rfl, rfl, rfl⟩
  · cases allocOk <;> rfl
  · cases allocOk <;> rfl
  · cases allocOk <;> rfl
  · cases allocOk <;> rfl
  · intro hfail
    rw [hfail]
    exact ⟨rfl, rfl⟩

/-- C4 witness: the constructors evaluated with failing internal
allocation return the static sentinels, which are fully setup. -/
theorem c4_witness :
    sc3_error_new_bug false "caller.c" 12 "failed" = sc3_static_bug
    ∧ (sc3_error_new_stack false (some sc3_static_bug) "caller.c" 12
        "failed").1 = sc3_static_fatal
    ∧ (sc3_error_new_bug false "caller.c" 12 "failed").setup = true :=
  ⟨((c4_error_constructors_never_fail false "caller.c" 12 "failed"
      (some sc3_static_bug)).2.2.2.2.1 rfl).1,
   ((c4_error_constructors_never_fail false "caller.c" 12 "failed"
      (some sc3_static_bug)).2.2.2.2.1 rfl).2,
   (c4_error_constructors_never_fail false "caller.c" 12 "failed"
      (some sc3_static_bug)).1⟩

/-- C5: for every setup error, sc3_error_is_fatal is true exactly when
the kind is FATAL, BUG, MEMORY or NETWORK, sc3_error_is_leak is true
exactly when the kind is LEAK, and sc3_error_get_kind applied to an error
constructed with kind k returns k. -/
theorem c5_kind_predicates :
    ∀ e : sc3_error, e.setup = true →
    ((sc3_error_is_fatal (some e)).1 = true ↔
      (e.kind = .SC3_ERROR_FATAL ∨ e.kind = .SC3_ERROR_BUG
        ∨ e.kind = .SC3_ERROR_MEMORY ∨ e.kind = .SC3_ERROR_NETWORK))
    ∧ ((sc3_error_is_leak (some e)).1 = true ↔
        e.kind = .SC3_ERROR_LEAK)
    ∧ (∀ (k : sc3_error_kind) (fn ms : String) (ln : Int),
        sc3_error_get_kind (some (sc3_error_new_kind true k fn ln ms))
            (some .SC3_ERROR_FATAL) = (some k, none)) := by
  intro e hs
  refine ⟨?_, ?_, ?_⟩
  · rw [show (sc3_error_is_fatal (some e)).1
        = sc3_error_kind_is_fatal e.kind by
      unfold sc3_error_is_fatal sc3_error_is_setup
      rw [sc3_is_fst, sc3_test_fst, sc3_test_fst, hs]
      simp [sc3_yes]]
    cases hk : e.kind <;> simp [sc3_error_kind_is_fatal]
  · rw [show (sc3_error_is_leak (some e)).1
        = decide (e.kind = .SC3_ERROR_LEAK) by
      unfold sc3_error_is_leak sc3_error_is_setup
      rw [sc3_is_fst, sc3_test_fst, sc3_test_fst, hs]
      simp [sc3_yes]]
    simp
  · intro k fn ms ln
    rfl

/-- C5 witness: the predicates evaluated at a concrete setup FATAL error
and get_kind at a concretely constructed LEAK error. -/
theorem c5_witness :
    (sc3_error_is_fatal (some error_single_ref_ex)).1 = true
    ∧ sc3_error_get_kind
        (some (sc3_error_new_kind true .SC3_ERROR_LEAK "caller.c" 3
          "leftover"))
        (some .SC3_ERROR_FATAL) = (some .SC3_ERROR_LEAK, none) :=
  ⟨((c5_kind_predicates error_single_ref_ex rfl).1).mpr (Or.inl rfl),
   (c5_kind_predicates error_single_ref_ex rfl).2.2 .SC3_ERROR_LEAK
     "caller.c" "leftover" 3⟩

theorem new_bug_kind (allocOk : Bool) (fn : String) (ln : Int)
    (ms : String) :
    (sc3_error_new_bug allocOk fn ln ms).kind = .SC3_ERROR_BUG := by
  cases allocOk <;> rfl

/-- C7: the configuration setters sc3_mstamp_set_elem_size,
sc3_mstamp_set_stamp_size and sc3_mstamp_set_initzero record the given
value and return NULL on an arena in phase NEW; outside phase NEW the
assertion discipline (active in a debug build) returns a BUG-kind error
immediately, leaving the arena unchanged; in a release build the
assertion is compiled out and the value is recorded unconditionally. -/
theorem c7_setters_phase_new_only :
    ∀ (debug allocOk : Bool) (m : sc3_mstamp) (v : Nat) (b : Bool),
    ((sc3_mstamp_is_new (some m)).1 = true →
      sc3_mstamp_set_elem_size debug allocOk m v
        = ({ m with esize := v }, none)
      ∧ sc3_mstamp_set_stamp_size debug allocOk m v
        = ({ m with ssize := v }, none)
      ∧ sc3_mstamp_set_initzero debug allocOk m b
        = ({ m with initzero := b }, none))
    ∧ ((sc3_mstamp_is_new (some m)).1 = false →
      (sc3_mstamp_set_elem_size true allocOk m v).1 = m
      ∧ (sc3_mstamp_set_elem_size true allocOk m v).2.map sc3_error.kind
          = some .SC3_ERROR_BUG
      ∧ (sc3_mstamp_set_stamp_size true allocOk m v).1 = m
      ∧ (sc3_mstamp_set_stamp_size true allocOk m v).2.map sc3_error.kind
          = some .SC3_ERROR_BUG
      ∧ (sc3_mstamp_set_initzero true allocOk m b).1 = m
      ∧ (sc3_mstamp_set_initzero true allocOk m b).2.map sc3_error.kind
          = some .SC3_ERROR_BUG)
    ∧ (sc3_mstamp_set_elem_size false allocOk m v
        = ({ m with esize := v }, none)
      ∧ sc3_mstamp_set_stamp_size false allocOk m v
        = ({ m with ssize := v }, none)
      ∧ sc3_mstamp_set_initzero false allocOk m b
        = ({ m with initzero := b }, none)) := by
  intro debug allocOk m v b
  refine ⟨?_, ?_, ?_⟩
  · intro h
    refine ⟨?_, ?_, ?_⟩ <;>
      simp [sc3_mstamp_set_elem_size, sc3_mstamp_set_stamp_size,
        sc3_mstamp_set_initzero, h]
  · intro h
    refine ⟨?_, ?_, ?_, ?_, ?_, ?_⟩ <;>
      simp [sc3_mstamp_set_elem_size, sc3_mstamp_set_stamp_size,
        sc3_mstamp_set_initzero, h, new_bug_kind]
  · refine ⟨?_, ?_, ?_⟩ <;>
      simp [sc3_mstamp_set_elem_size, sc3_mstamp_set_stamp_size,
        sc3_mstamp_set_initzero]

/-- C7 witness: the setters evaluated in a debug build at a concrete
arena in phase NEW (value recorded, NULL returned) and at a concrete
setup arena (BUG error returned, arena unchanged). -/
theorem c7_witness :
    sc3_mstamp_set_elem_size true true mstamp_new_ex 16
      = ({ mstamp_new_ex with esize := 16 }, none)
    ∧ (sc3_mstamp_set_elem_size true true mstamp_setup_ex 16).1
        = mstamp_setup_ex
    ∧ (sc3_mstamp_set_elem_size true true mstamp_setup_ex 16).2.map
        sc3_error.kind = some .SC3_ERROR_BUG :=
  ⟨((c7_setters_phase_new_only true true mstamp_new_ex 16 true).1
      (by decide)).1,
   ((c7_setters_phase_new_only true true mstamp_setup_ex 16 true).2.1
      (by decide)).1,
   ((c7_setters_phase_new_only true true mstamp_setup_ex 16 true).2.1
      (by decide)).2.1⟩

/-- C8: the LIFO free/allocate law of the stamp arena: whenever the free
list is non-empty, allocate pops and returns its top entry; concretely,
with elem_size 8 and elements_per_stamp 4, the four first allocations
yield four distinct addresses inside stamp 0 with stamp_count 1, and
after freeing the second one (b) the next allocation returns exactly b's
address. -/
theorem c8_allocate_free_lifo :
    (∀ (m : mstamp_state) (a : Nat × Nat) (rest : List (Nat × Nat)),
      m.freelist = a :: rest →
      sc3_mstamp_alloc m = ({ m with freelist := rest }, a))
    ∧ (c8_s1.2 = (0, 0) ∧ c8_s2.2 = (0, 8) ∧ c8_s3.2 = (0, 16)
      ∧ c8_s4.2 = (0, 24)
      ∧ [c8_s1.2, c8_s2.2, c8_s3.2, c8_s4.2].Nodup
      ∧ c8_s4.1.scount = 1
      ∧ c8_s5.2 = c8_s2.2) := by
  constructor
  · intro m a rest h
    simp [sc3_mstamp_alloc, h]
  · refine ⟨by decide, by decide, by decide, by decide, by decide,
      by decide, by decide⟩

/-- C8 witness: the general LIFO clause applied to the concrete arena
state of the scenario right after freeing element b. -/
theorem c8_witness :
    sc3_mstamp_alloc c8_after_free
      = ({ c8_after_free with freelist := [] }, c8_s2.2) :=
  c8_allocate_free_lifo.1 c8_after_free c8_s2.2 [] (by decide)

/-- C10: each stamp-arena read accessor tolerates a NULL output pointer,
returning success without writing for every setup arena; a non-NULL
output cell is set to 0 before the setup precondition is checked, so on
the debug-build error return the cell reads 0 and the returned error is
of kind BUG. -/
theorem c10_getters_output_discipline :
    (∀ (debug : Bool) (m : sc3_mstamp),
      (sc3_mstamp_is_setup (some m)).1 = true →
      sc3_mstamp_get_elem_size debug (some m) none = some (none, none)
      ∧ sc3_mstamp_get_stamp_size debug (some m) none = some (none, none)
      ∧ sc3_mstamp_get_stamp_count debug (some m) none
          = some (none, none))
    ∧ (∀ (mst : Option sc3_mstamp) (v : Nat) (w : Int),
      (sc3_mstamp_is_setup mst).1 = false →
      (sc3_mstamp_get_elem_size true mst (some v)).map Prod.fst
          = some (some 0)
      ∧ (sc3_mstamp_get_elem_size true mst (some v)).map
          (fun p => p.2.map sc3_error.kind)
          = some (some .SC3_ERROR_BUG)
      ∧ (sc3_mstamp_get_stamp_size true mst (some v)).map Prod.fst
          = some (some 0)
      ∧ (sc3_mstamp_get_stamp_size true mst (some v)).map
          (fun p => p.2.map sc3_error.kind)
          = some (some .SC3_ERROR_BUG)
      ∧ (sc3_mstamp_get_stamp_count true mst (some w)).map Prod.fst
          = some (some 0)
      ∧ (sc3_mstamp_get_stamp_count true mst (some w)).map
          (fun p => p.2.map sc3_error.kind)
          = some (some .SC3_ERROR_BUG)) := by
  constructor
  · intro debug m h
    refine ⟨?_, ?_, ?_⟩ <;>
      simp [sc3_mstamp_get_elem_size, sc3_mstamp_get_stamp_size,
        sc3_mstamp_get_stamp_count, h]
  · intro mst v w h
    refine ⟨?_, ?_, ?_, ?_, ?_, ?_⟩ <;>
      simp [sc3_mstamp_get_elem_size, sc3_mstamp_get_stamp_size,
        sc3_mstamp_get_stamp_count, h, new_bug_kind]

/-- C10 witness: the accessors evaluated at a concrete setup arena with a
NULL output pointer, and at a NULL arena in a debug build with a non-NULL
output cell reading 0 after the error return. -/
theorem c10_witness :
    sc3_mstamp_get_elem_size true (some mstamp_setup_ex) none
      = some (none, none)
    ∧ (sc3_mstamp_get_elem_size true none (some 5)).map Prod.fst
      = some (some 0) :=
  ⟨(c10_getters_output_discipline.1 true mstamp_setup_ex (by decide)).1,
   (c10_getters_output_discipline.2 none 5 0 (by decide)).1⟩
